import Mathlib

/-!
Shallow embedding of the volleyball match-recording core
(src/types.ts, src/App.tsx, src/components/GameView.tsx, and the
statistics overlay component), together with proofs of the spec claims.

TypeScript `Record<Position, string>` lineups become a six-field
structure; optional fields become `Option`; JS arrays become `List`
(push-to-end is `++ [x]`, unshift is cons).  Timestamps and ids are
passed in as parameters (the source reads `Date.now()`).
-/

namespace Volley

/-- Court position 1-6 (src/types.ts `Position`). -/
inductive Position where
  | p1 | p2 | p3 | p4 | p5 | p6
deriving DecidableEq, Repr

/-- Jersey numbers by position (src/types.ts `Lineup`). -/
structure Lineup where
  pos1 : String
  pos2 : String
  pos3 : String
  pos4 : String
  pos5 : String
  pos6 : String
deriving DecidableEq, Repr

/-- Lineup lookup `lineup[pos]`. -/
def Lineup.get (l : Lineup) : Position → String
  | Position.p1 => l.pos1
  | Position.p2 => l.pos2
  | Position.p3 => l.pos3
  | Position.p4 => l.pos4
  | Position.p5 => l.pos5
  | Position.p6 => l.pos6

/-- Lineup slot replacement `{ ...lineup, [pos]: v }`. -/
def Lineup.set (l : Lineup) (pos : Position) (v : String) : Lineup :=
  match pos with
  | Position.p1 => { l with pos1 := v }
  | Position.p2 => { l with pos2 := v }
  | Position.p3 => { l with pos3 := v }
  | Position.p4 => { l with pos4 := v }
  | Position.p5 => { l with pos5 := v }
  | Position.p6 => { l with pos6 := v }

/-- `Object.values(lineup)` -- the six jersey numbers. -/
def Lineup.values (l : Lineup) : List String :=
  [l.pos1, l.pos2, l.pos3, l.pos4, l.pos5, l.pos6]

/-- src/types.ts `Coordinate` (percent of court width/height). -/
structure Coordinate where
  x : Int
  y : Int
deriving DecidableEq, Repr

/-- src/types.ts `ActionType`. -/
inductive ActionType where
  | SERVE | ATTACK | BLOCK | DIG | SET | RECEIVE | SUB
deriving DecidableEq, Repr

/-- src/types.ts `ActionQuality`. -/
inductive ActionQuality where
  | PERFECT | GOOD | NORMAL | POOR
deriving DecidableEq, Repr

/-- src/types.ts `ResultType`. -/
inductive ResultType where
  | POINT | ERROR | NORMAL
deriving DecidableEq, Repr

/-- src/types.ts `TeamSide` (string union 'me' | 'op'). -/
inductive TeamSide where
  | me | op
deriving DecidableEq, Repr

/-- src/types.ts `LogEntry`. -/
structure LogEntry where
  id : String
  timestamp : Nat
  setNumber : Nat
  myScore : Nat
  opScore : Nat
  playerNumber : String
  position : Position
  action : ActionType
  quality : ActionQuality
  result : ResultType
  startCoord : Option Coordinate := none
  endCoord : Option Coordinate := none
  note : Option String := none
  servingTeam : TeamSide
deriving DecidableEq, Repr

/-- src/types.ts `TeamConfig`. -/
structure TeamConfig where
  matchName : String
  myName : String
  opName : String
deriving DecidableEq, Repr

/-- src/types.ts `GameState` (the snapshot unit for undo/redo). -/
structure GameState where
  currentSet : Nat
  mySetWins : Nat
  opSetWins : Nat
  myLineup : Lineup
  opLineup : Lineup
  myScore : Nat
  opScore : Nat
  servingTeam : TeamSide
  logs : List LogEntry
deriving DecidableEq, Repr

/-- The App component's live state: the game-state fields plus the
`history` and `future` stacks (src/App.tsx).  JS `history.push`
appends at the end; `future` is built with unshift (cons at front). -/
structure AppState where
  state : GameState
  history : List GameState
  future : List GameState
deriving DecidableEq, Repr

/-- src/components/GameView.tsx `getRotatedLineup`:
new 1 = old 2, 6 = old 1, 5 = old 6, 4 = old 5, 3 = old 4, 2 = old 3. -/
def getRotatedLineup (lineup : Lineup) : Lineup :=
  { pos1 := lineup.pos2
    pos6 := lineup.pos1
    pos5 := lineup.pos6
    pos4 := lineup.pos5
    pos3 := lineup.pos4
    pos2 := lineup.pos3 }

/-- src/App.tsx `pushHistory`: push the current state onto the history
stack and clear the redo stack. -/
def pushHistory (s : AppState) : AppState :=
  { s with history := s.history ++ [s.state], future := [] }

/-- src/App.tsx `handleUndo`: no-op when the history stack is empty;
otherwise pop its most recent snapshot, push the current state onto the
front of `future`, and restore the popped snapshot. -/
def handleUndo (s : AppState) : AppState :=
  match s.history.getLast? with
  | none => s
  | some previous =>
      { state := previous
        history := s.history.dropLast
        future := s.state :: s.future }

/-- src/App.tsx `handleRedo`: no-op when the redo stack is empty;
otherwise take `future[0]`, push the current state onto history, and
restore that snapshot. -/
def handleRedo (s : AppState) : AppState :=
  match s.future with
  | [] => s
  | next :: rest =>
      { state := next
        history := s.history ++ [s.state]
        future := rest }

/-- src/App.tsx `handleGameAction`'s `scoreUpdate` argument. -/
structure ScoreUpdate where
  isMyPoint : Bool
deriving DecidableEq, Repr

/-- src/App.tsx `handleGameAction`'s `lineupUpdate` argument. -/
structure LineupUpdate where
  isMyTeam : Bool
  newLineup : Lineup
deriving DecidableEq, Repr

/-- src/App.tsx `handleGameAction`: push history, then apply the
optional log append (with `setNumber` overwritten by the current set),
score increment, lineup replacement, and serving-team change. -/
def handleGameAction (newLog : Option LogEntry) (scoreUpdate : Option ScoreUpdate)
    (lineupUpdate : Option LineupUpdate) (newServingTeam : Option TeamSide)
    (s : AppState) : AppState :=
  let s1 := pushHistory s
  let g0 := s1.state
  let g1 := match newLog with
    | some entry => { g0 with logs := g0.logs ++ [{ entry with setNumber := g0.currentSet }] }
    | none => g0
  let g2 := match scoreUpdate with
    | some u =>
        if u.isMyPoint then { g1 with myScore := g1.myScore + 1 }
        else { g1 with opScore := g1.opScore + 1 }
    | none => g1
  let g3 := match lineupUpdate with
    | some u =>
        if u.isMyTeam then { g2 with myLineup := u.newLineup }
        else { g2 with opLineup := u.newLineup }
    | none => g2
  let g4 := match newServingTeam with
    | some t => { g3 with servingTeam := t }
    | none => g3
  { s1 with state := g4 }

/-- src/App.tsx `handleNextSet`: push history, credit a set win to the
side with the strictly higher score (none on a tie), and increment the
set number.  (The view switch back to setup is not modelled.) -/
def handleNextSet (s : AppState) : AppState :=
  let s1 := pushHistory s
  let g0 := s1.state
  let g1 :=
    if g0.myScore > g0.opScore then { g0 with mySetWins := g0.mySetWins + 1 }
    else if g0.opScore > g0.myScore then { g0 with opSetWins := g0.opSetWins + 1 }
    else g0
  { s1 with state := { g1 with currentSet := g1.currentSet + 1 } }

/-- src/App.tsx `handleGameStart`: install the lineups and serving team
entered in setup, reset both scores to zero, and clear both history
stacks.  Logs, set number and set wins are deliberately untouched. -/
def handleGameStart (initialMyLineup initialOpLineup : Lineup)
    (initialServingTeam : TeamSide) (s : AppState) : AppState :=
  { state := { s.state with
                 myLineup := initialMyLineup
                 opLineup := initialOpLineup
                 myScore := 0
                 opScore := 0
                 servingTeam := initialServingTeam }
    history := []
    future := [] }

/-- The complete set transition as the spec describes it: `handleNextSet`
(credit set win, bump set number) followed by the lineup re-entry phase
committing via `handleGameStart` (scores reset to zero). -/
def setTransition (newMyLineup newOpLineup : Lineup) (newServing : TeamSide)
    (s : AppState) : AppState :=
  handleGameStart newMyLineup newOpLineup newServing (handleNextSet s)

/-- The selections the GameView recorder has accumulated when
`handleResultSelect` fires (selected player position/side, action,
quality, coordinates).  In the source these are component state; the
null-guards at the top of `handleResultSelect` make them non-null
there, so they are plain fields here. -/
structure RallySelection where
  selectedPos : Position
  selectedIsMyTeam : Bool
  selectedAction : ActionType
  selectedQuality : ActionQuality
  startCoord : Option Coordinate
  endCoord : Option Coordinate
deriving DecidableEq, Repr

/-- src/components/GameView.tsx `handleResultSelect`: compute the score
update and side-out decision for the chosen result, build the LogEntry
with post-increment scores and the post-transition serving team, and
commit everything through `handleGameAction`.  `idStr`/`now` stand for
`Date.now()`. -/
def handleResultSelect (cfg : TeamConfig) (sel : RallySelection)
    (result : ResultType) (idStr : String) (now : Nat) (s : AppState) : AppState :=
  let g := s.state
  let lineup := if sel.selectedIsMyTeam then g.myLineup else g.opLineup
  let playerNumber := Lineup.get lineup sel.selectedPos
  let outcome : Option ScoreUpdate × Option TeamSide × Option LineupUpdate :=
    match result with
    | ResultType.POINT =>
        let scoreUpdate := some { isMyPoint := sel.selectedIsMyTeam }
        let pointWinner : TeamSide := if sel.selectedIsMyTeam then TeamSide.me else TeamSide.op
        if pointWinner ≠ g.servingTeam then
          let lineToRotate := if pointWinner = TeamSide.me then g.myLineup else g.opLineup
          (scoreUpdate, some pointWinner,
            some { isMyTeam := pointWinner = TeamSide.me
                   newLineup := getRotatedLineup lineToRotate })
        else
          (scoreUpdate, none, none)
    | ResultType.ERROR =>
        let scoreUpdate := some { isMyPoint := !sel.selectedIsMyTeam }
        let pointWinner : TeamSide := if !sel.selectedIsMyTeam then TeamSide.me else TeamSide.op
        if pointWinner ≠ g.servingTeam then
          let lineToRotate := if pointWinner = TeamSide.me then g.myLineup else g.opLineup
          (scoreUpdate, some pointWinner,
            some { isMyTeam := pointWinner = TeamSide.me
                   newLineup := getRotatedLineup lineToRotate })
        else
          (scoreUpdate, none, none)
    | ResultType.NORMAL => (none, none, none)
  let scoreUpdate := outcome.1
  let newServingTeam := outcome.2.1
  let lineupUpdate := outcome.2.2
  let nextMyScore := match scoreUpdate with
    | some u => if u.isMyPoint then g.myScore + 1 else g.myScore
    | none => g.myScore
  let nextOpScore := match scoreUpdate with
    | some u => if !u.isMyPoint then g.opScore + 1 else g.opScore
    | none => g.opScore
  let newLog : LogEntry :=
    { id := idStr
      timestamp := now
      setNumber := g.currentSet
      myScore := nextMyScore
      opScore := nextOpScore
      playerNumber := playerNumber
      position := sel.selectedPos
      action := sel.selectedAction
      quality := sel.selectedQuality
      result := result
      startCoord := sel.startCoord
      endCoord := sel.endCoord
      note := some (if sel.selectedIsMyTeam then cfg.myName else cfg.opName)
      servingTeam := newServingTeam.getD g.servingTeam }
  handleGameAction (some newLog) scoreUpdate lineupUpdate newServingTeam s

/-- The `pointWinner` of §4.3: the side awarded the point by the
(acting side, result) pair, `none` when the rally is result NORMAL. -/
def rallyPointWinner (sel : RallySelection) : ResultType → Option TeamSide
  | ResultType.POINT => some (if sel.selectedIsMyTeam then TeamSide.me else TeamSide.op)
  | ResultType.ERROR => some (if !sel.selectedIsMyTeam then TeamSide.me else TeamSide.op)
  | ResultType.NORMAL => none

/-- Whitespace for `jsTrim` (space, tab, newline, carriage return). -/
def isJsWhitespace (c : Char) : Bool :=
  c = ' ' || c = '\t' || c = '\n' || c = '\r'

/-- JS `String.prototype.trim`: strip leading and trailing whitespace.
Defined by structural recursion on the character list so that it is
kernel-reducible (core's `String.trim` is not). -/
def jsTrim (s : String) : String :=
  String.mk (((s.data.dropWhile isJsWhitespace).reverse.dropWhile isJsWhitespace).reverse)

/-- The note string built by `confirmSub`:
`換人 (我方/對方): #old -> #new`. -/
def subNote (selectedIsMyTeam : Bool) (oldNum newNum : String) : String :=
  "換人 (" ++ (if selectedIsMyTeam then "我方" else "對方") ++ "): #"
    ++ oldNum ++ " -> #" ++ newNum

/-- src/components/GameView.tsx `confirmSub`: trim the entered number;
reject (state unchanged) when it is empty or already on court for that
team; otherwise replace the selected slot, append a descriptive SUB
LogEntry, and commit via `handleGameAction` with no score update and no
serving-team change. -/
def confirmSub (selectedPos : Position) (selectedIsMyTeam : Bool)
    (subNumber : String) (idStr : String) (now : Nat) (s : AppState) : AppState :=
  let g := s.state
  let newNum := jsTrim subNumber
  let currentLineup := if selectedIsMyTeam then g.myLineup else g.opLineup
  let oldNum := Lineup.get currentLineup selectedPos
  if newNum = "" then s
  else if newNum ∈ Lineup.values currentLineup then s
  else
    let newLineup := Lineup.set currentLineup selectedPos newNum
    let subLog : LogEntry :=
      { id := idStr
        timestamp := now
        setNumber := g.currentSet
        myScore := g.myScore
        opScore := g.opScore
        playerNumber := oldNum
        position := selectedPos
        action := ActionType.SUB
        quality := ActionQuality.NORMAL
        result := ResultType.NORMAL
        note := some (subNote selectedIsMyTeam oldNum newNum)
        servingTeam := g.servingTeam }
    handleGameAction (some subLog) none
      (some { isMyTeam := selectedIsMyTeam, newLineup := newLineup }) none s

/-- src/components/GameView.tsx `handleRotation` (manual rotation):
replace one team's lineup with its rotated form, no LogEntry.  The
`step === SELECT_PLAYER` guard is a UI-flow condition; only the
committed effect is modelled. -/
def handleRotation (isMyTeam : Bool) (s : AppState) : AppState :=
  let currentLineup := if isMyTeam then s.state.myLineup else s.state.opLineup
  handleGameAction none none
    (some { isMyTeam := isMyTeam, newLineup := getRotatedLineup currentLineup }) none s

/-- The mutating transitions of §4.4 (rally commit, substitution,
manual rotation, set transition as far as `handleNextSet`). -/
inductive Transition where
  | rally (cfg : TeamConfig) (sel : RallySelection) (result : ResultType)
      (idStr : String) (now : Nat)
  | substitution (pos : Position) (isMyTeam : Bool) (num : String)
      (idStr : String) (now : Nat)
  | manualRotation (isMyTeam : Bool)
  | nextSet
deriving Repr

/-- Apply a mutating transition to the app state. -/
def Transition.apply : Transition → AppState → AppState
  | Transition.rally cfg sel result idStr now, s => handleResultSelect cfg sel result idStr now s
  | Transition.substitution pos isMyTeam num idStr now, s => confirmSub pos isMyTeam num idStr now s
  | Transition.manualRotation isMyTeam, s => handleRotation isMyTeam s
  | Transition.nextSet, s => handleNextSet s

/-- A transition actually commits (reaches `handleGameAction` /
`pushHistory`): always, except a substitution rejected by validation. -/
def Transition.commits : Transition → AppState → Prop
  | Transition.substitution _ isMyTeam num _ _, s =>
      let currentLineup := if isMyTeam then s.state.myLineup else s.state.opLineup
      jsTrim num ≠ "" ∧ jsTrim num ∉ Lineup.values currentLineup
  | _, _ => True

instance (t : Transition) (s : AppState) : Decidable (t.commits s) := by
  cases t <;> simp [Transition.commits] <;> infer_instance

/-- `StatSummary` of the statistics overlay component. -/
structure StatSummary where
  attackKills : Nat
  attackTotal : Nat
  blocks : Nat
  serveAces : Nat
  serveErrors : Nat
  digs : Nat
  totalPoints : Nat
deriving DecidableEq, Repr

/-- One iteration of `calculateStats`' forEach body. -/
def statStep (stats : StatSummary) (l : LogEntry) : StatSummary :=
  let stats :=
    if l.action = ActionType.ATTACK then
      let stats := { stats with attackTotal := stats.attackTotal + 1 }
      if l.result = ResultType.POINT then { stats with attackKills := stats.attackKills + 1 }
      else stats
    else stats
  let stats :=
    if l.action = ActionType.BLOCK ∧ l.result = ResultType.POINT then
      { stats with blocks := stats.blocks + 1 }
    else stats
  let stats :=
    if l.action = ActionType.SERVE then
      let stats := if l.result = ResultType.POINT then { stats with serveAces := stats.serveAces + 1 } else stats
      if l.result = ResultType.ERROR then { stats with serveErrors := stats.serveErrors + 1 } else stats
    else stats
  if l.action = ActionType.DIG then { stats with digs := stats.digs + 1 } else stats

/-- `calculateStats` of the statistics overlay: accumulate the counters
over the filtered logs, then set `totalPoints = attackKills + blocks +
serveAces`. -/
def calculateStats (filteredLogs : List LogEntry) : StatSummary :=
  let stats := filteredLogs.foldl statStep
    { attackKills := 0, attackTotal := 0, blocks := 0, serveAces := 0
      serveErrors := 0, digs := 0, totalPoints := 0 }
  { stats with totalPoints := stats.attackKills + stats.blocks + stats.serveAces }

/-- The attack-rate percentage the overlay displays:
`attackTotal > 0 ? Math.round((attackKills/attackTotal)*100) : 0`
(`Math.round x = ⌊x + 1/2⌋` on exact rationals). -/
def displayedAttackRate (stats : StatSummary) : Int :=
  if stats.attackTotal > 0 then
    round (((stats.attackKills : ℚ) / (stats.attackTotal : ℚ)) * 100)
  else 0

/-- `getTeamLogs` of the statistics overlay: an entry belongs to side
'me' exactly when its note equals the configured my-team name, and to
'op' otherwise. -/
def getTeamLogs (cfg : TeamConfig) (logs : List LogEntry) (side : TeamSide) : List LogEntry :=
  logs.filter fun l =>
    let isMyAction := l.note = some cfg.myName
    let logTeam : TeamSide := if isMyAction then TeamSide.me else TeamSide.op
    decide (logTeam = side)

/-- The player-number list of `activePlayersList`: the deduplicated
player numbers of the side's team logs.  (JS `Set` keeps first
occurrences and the source then sorts by parsed number; only
membership matters here, which dedup order does not change.) -/
def activePlayers (cfg : TeamConfig) (logs : List LogEntry) (side : TeamSide) : List String :=
  ((getTeamLogs cfg logs side).map fun l => l.playerNumber).dedup

/-! ### Concrete fixtures used by the witness theorems -/

def lineupA : Lineup :=
  { pos1 := "1", pos2 := "2", pos3 := "3", pos4 := "4", pos5 := "5", pos6 := "6" }

def lineupB : Lineup :=
  { pos1 := "7", pos2 := "8", pos3 := "9", pos4 := "10", pos5 := "11", pos6 := "12" }

def cfg0 : TeamConfig := { matchName := "friendly", myName := "A", opName := "B" }

def game0 : GameState :=
  { currentSet := 1, mySetWins := 0, opSetWins := 0
    myLineup := lineupA, opLineup := lineupB
    myScore := 3, opScore := 2, servingTeam := TeamSide.op, logs := [] }

def app0 : AppState := { state := game0, history := [], future := [] }

def sel0 : RallySelection :=
  { selectedPos := Position.p3, selectedIsMyTeam := true
    selectedAction := ActionType.ATTACK, selectedQuality := ActionQuality.GOOD
    startCoord := none, endCoord := none }

/-! ### Helper lemmas -/

/-- Replacing one slot leaves every other slot unchanged. -/
theorem Lineup.get_set_ne (l : Lineup) (pos q : Position) (v : String)
    (h : q ≠ pos) : (l.set pos v).get q = l.get q := by
  cases pos <;> cases q <;> first | exact absurd rfl h | rfl

/-- The replaced slot holds the new value. -/
theorem Lineup.get_set_self (l : Lineup) (pos : Position) (v : String) :
    (l.set pos v).get pos = v := by
  cases pos <;> rfl

/-- Any state of the shape produced by `pushHistory` followed by
state-only edits round-trips through undo then redo. -/
theorem roundtrip_of_shape (s' s : AppState)
    (hh : s'.history = s.history ++ [s.state]) (hf : s'.future = []) :
    handleRedo (handleUndo s') = s' := by
  obtain ⟨g', h', f'⟩ := s'
  simp only at hh hf
  subst hh hf
  simp [handleUndo, handleRedo, List.getLast?_concat, List.dropLast_concat]

/-! ### Claim theorems -/

/-- C3: `getRotatedLineup` is the fixed permutation new[1]=old[2],
new[2]=old[3], new[3]=old[4], new[4]=old[5], new[5]=old[6],
new[6]=old[1], and applying it six times is the identity. -/
theorem rotation_is_cycle_of_order_six (l : Lineup) :
    (getRotatedLineup l).pos1 = l.pos2 ∧ (getRotatedLineup l).pos2 = l.pos3 ∧
    (getRotatedLineup l).pos3 = l.pos4 ∧ (getRotatedLineup l).pos4 = l.pos5 ∧
    (getRotatedLineup l).pos5 = l.pos6 ∧ (getRotatedLineup l).pos6 = l.pos1 ∧
    getRotatedLineup^[6] l = l :=
  ⟨rfl, rfl, rfl, rfl, rfl, rfl, rfl⟩

/-- C1: for a committed rally awarding a point (pointWinner defined),
the serving side changes iff the winner differs from the prior serving
side; exactly the winner's lineup is rotated iff the side changes; and
nothing changes when the winner was already serving. -/
theorem rally_side_out_invariant (cfg : TeamConfig) (sel : RallySelection)
    (result : ResultType) (idStr : String) (now : Nat) (s : AppState) (w : TeamSide)
    (h : rallyPointWinner sel result = some w) :
    ((handleResultSelect cfg sel result idStr now s).state.servingTeam ≠ s.state.servingTeam
        ↔ w ≠ s.state.servingTeam)
    ∧ (w ≠ s.state.servingTeam →
        (handleResultSelect cfg sel result idStr now s).state.servingTeam = w
        ∧ (if w = TeamSide.me then
             (handleResultSelect cfg sel result idStr now s).state.myLineup
                 = getRotatedLineup s.state.myLineup
             ∧ (handleResultSelect cfg sel result idStr now s).state.opLineup
                 = s.state.opLineup
           else
             (handleResultSelect cfg sel result idStr now s).state.opLineup
                 = getRotatedLineup s.state.opLineup
             ∧ (handleResultSelect cfg sel result idStr now s).state.myLineup
                 = s.state.myLineup))
    ∧ (w = s.state.servingTeam →
        (handleResultSelect cfg sel result idStr now s).state.servingTeam = s.state.servingTeam
        ∧ (handleResultSelect cfg sel result idStr now s).state.myLineup = s.state.myLineup
        ∧ (handleResultSelect cfg sel result idStr now s).state.opLineup = s.state.opLineup) := by
  obtain ⟨pos, my, act, q, sc, ec⟩ := sel
  obtain ⟨⟨cs, msw, osw, ml, ol, ms, os, st, lg⟩, hist, fut⟩ := s
  cases result <;> cases my <;> cases st <;> simp [rallyPointWinner] at h <;>
    (subst h
     refine ⟨Iff.rfl, fun hne => ?_, fun heq => ?_⟩ <;>
       first
         | exact ⟨rfl, rfl, rfl⟩
         | exact absurd rfl hne
         | simp at heq)

/-- C2: for a committed rally, the score outcome is determined by the
(acting side, result) pair: POINT gives the acting team one point,
ERROR gives the opposing team one point, NORMAL changes nothing, and
the other team's score is untouched in every case. -/
theorem rally_score_outcome (cfg : TeamConfig) (sel : RallySelection)
    (result : ResultType) (idStr : String) (now : Nat) (s : AppState) :
    (result = ResultType.POINT →
       if sel.selectedIsMyTeam then
         (handleResultSelect cfg sel result idStr now s).state.myScore = s.state.myScore + 1
         ∧ (handleResultSelect cfg sel result idStr now s).state.opScore = s.state.opScore
       else
         (handleResultSelect cfg sel result idStr now s).state.opScore = s.state.opScore + 1
         ∧ (handleResultSelect cfg sel result idStr now s).state.myScore = s.state.myScore)
    ∧ (result = ResultType.ERROR →
       if sel.selectedIsMyTeam then
         (handleResultSelect cfg sel result idStr now s).state.opScore = s.state.opScore + 1
         ∧ (handleResultSelect cfg sel result idStr now s).state.myScore = s.state.myScore
       else
         (handleResultSelect cfg sel result idStr now s).state.myScore = s.state.myScore + 1
         ∧ (handleResultSelect cfg sel result idStr now s).state.opScore = s.state.opScore)
    ∧ (result = ResultType.NORMAL →
        (handleResultSelect cfg sel result idStr now s).state.myScore = s.state.myScore
        ∧ (handleResultSelect cfg sel result idStr now s).state.opScore = s.state.opScore) := by
  obtain ⟨pos, my, act, q, sc, ec⟩ := sel
  obtain ⟨⟨cs, msw, osw, ml, ol, ms, os, st, lg⟩, hist, fut⟩ := s
  cases result <;> cases my <;> cases st <;>
    refine ⟨?_, ?_, ?_⟩ <;> intro hr <;>
      first
        | exact ⟨rfl, rfl⟩
        | simp at hr

/-- C4: every committed rally appends exactly one LogEntry, and that
entry records the post-increment scores and the post-transition
serving side. -/
theorem rally_log_post_values (cfg : TeamConfig) (sel : RallySelection)
    (result : ResultType) (idStr : String) (now : Nat) (s : AppState) :
    ∃ e, (handleResultSelect cfg sel result idStr now s).state.logs = s.state.logs ++ [e]
      ∧ e.myScore = (handleResultSelect cfg sel result idStr now s).state.myScore
      ∧ e.opScore = (handleResultSelect cfg sel result idStr now s).state.opScore
      ∧ e.servingTeam = (handleResultSelect cfg sel result idStr now s).state.servingTeam := by
  obtain ⟨pos, my, act, q, sc, ec⟩ := sel
  obtain ⟨⟨cs, msw, osw, ml, ol, ms, os, st, lg⟩, hist, fut⟩ := s
  cases result <;> cases my <;> cases st <;> exact ⟨_, rfl, rfl, rfl, rfl⟩

/-- C5: for every state and every committed mutating transition (rally
commit, accepted substitution, manual rotation, set transition),
doing the transition, undoing, then redoing reproduces the
post-transition state exactly (all game-state fields and both stacks). -/
theorem undo_redo_roundtrip (t : Transition) (s : AppState) (h : t.commits s) :
    handleRedo (handleUndo (t.apply s)) = t.apply s := by
  have hh : (t.apply s).history = s.history ++ [s.state] ∧ (t.apply s).future = [] := by
    cases t with
    | rally cfg sel result idStr now => exact ⟨rfl, rfl⟩
    | substitution pos isMyTeam num idStr now =>
        obtain ⟨h1, h2⟩ := h
        constructor <;>
          · simp only [Transition.apply, confirmSub]
            rw [if_neg h1, if_neg h2]
            rfl
    | manualRotation isMyTeam => exact ⟨rfl, rfl⟩
    | nextSet => exact ⟨rfl, rfl⟩
  exact roundtrip_of_shape _ s hh.1 hh.2

/-- C6: undo with an empty history stack is a complete no-op, and so
is redo with an empty future stack. -/
theorem undo_redo_empty_noop (s : AppState) :
    (s.history = [] → handleUndo s = s) ∧ (s.future = [] → handleRedo s = s) := by
  obtain ⟨g, hist, fut⟩ := s
  constructor
  · intro h
    simp only at h
    subst h
    rfl
  · intro h
    simp only at h
    subst h
    rfl

/-- Unfolding of `confirmSub` on the accepted path. -/
theorem confirmSub_accepted (pos : Position) (isMyTeam : Bool)
    (num idStr : String) (now : Nat) (s : AppState)
    (h1 : jsTrim num ≠ "")
    (h2 : jsTrim num ∉ Lineup.values (if isMyTeam then s.state.myLineup else s.state.opLineup)) :
    confirmSub pos isMyTeam num idStr now s =
      handleGameAction
        (some { id := idStr
                timestamp := now
                setNumber := s.state.currentSet
                myScore := s.state.myScore
                opScore := s.state.opScore
                playerNumber := (if isMyTeam then s.state.myLineup else s.state.opLineup).get pos
                position := pos
                action := ActionType.SUB
                quality := ActionQuality.NORMAL
                result := ResultType.NORMAL
                note := some (subNote isMyTeam
                  ((if isMyTeam then s.state.myLineup else s.state.opLineup).get pos) (jsTrim num))
                servingTeam := s.state.servingTeam })
        none
        (some { isMyTeam := isMyTeam
                newLineup := Lineup.set (if isMyTeam then s.state.myLineup else s.state.opLineup)
                  pos (jsTrim num) })
        none s := by
  simp only [confirmSub]
  rw [if_neg h1, if_neg h2]

/-- C7: a substitution whose trimmed replacement number is empty or
already on court for that team is rejected with the whole state
unchanged; an accepted substitution replaces exactly the selected
slot, appends one descriptive SUB LogEntry, and leaves scores and
serving side untouched. -/
theorem substitution_validation (pos : Position) (isMyTeam : Bool)
    (num idStr : String) (now : Nat) (s : AppState) :
    (jsTrim num = "" ∨ jsTrim num ∈ Lineup.values (if isMyTeam then s.state.myLineup else s.state.opLineup) →
       confirmSub pos isMyTeam num idStr now s = s)
    ∧ (jsTrim num ≠ "" →
       jsTrim num ∉ Lineup.values (if isMyTeam then s.state.myLineup else s.state.opLineup) →
       (confirmSub pos isMyTeam num idStr now s).state.myScore = s.state.myScore
       ∧ (confirmSub pos isMyTeam num idStr now s).state.opScore = s.state.opScore
       ∧ (confirmSub pos isMyTeam num idStr now s).state.servingTeam = s.state.servingTeam
       ∧ (if isMyTeam then
            (confirmSub pos isMyTeam num idStr now s).state.myLineup
              = Lineup.set s.state.myLineup pos (jsTrim num)
            ∧ (confirmSub pos isMyTeam num idStr now s).state.opLineup = s.state.opLineup
          else
            (confirmSub pos isMyTeam num idStr now s).state.opLineup
              = Lineup.set s.state.opLineup pos (jsTrim num)
            ∧ (confirmSub pos isMyTeam num idStr now s).state.myLineup = s.state.myLineup)
       ∧ (∀ q2 : Position, q2 ≠ pos →
            (Lineup.set (if isMyTeam then s.state.myLineup else s.state.opLineup) pos (jsTrim num)).get q2
              = (if isMyTeam then s.state.myLineup else s.state.opLineup).get q2)
       ∧ (Lineup.set (if isMyTeam then s.state.myLineup else s.state.opLineup) pos (jsTrim num)).get pos
           = jsTrim num
       ∧ ∃ e, (confirmSub pos isMyTeam num idStr now s).state.logs = s.state.logs ++ [e]
           ∧ e.action = ActionType.SUB
           ∧ e.note = some (subNote isMyTeam
               ((if isMyTeam then s.state.myLineup else s.state.opLineup).get pos) (jsTrim num))) := by
  constructor
  · intro h
    by_cases he : jsTrim num = ""
    · simp [confirmSub, he]
    · rcases h with h | h
      · exact absurd h he
      · simp [confirmSub, he, h]
  · intro h1 h2
    rw [confirmSub_accepted pos isMyTeam num idStr now s h1 h2]
    cases isMyTeam <;>
      exact ⟨rfl, rfl, rfl, ⟨rfl, rfl⟩,
        fun q2 hq => Lineup.get_set_ne _ _ _ _ hq,
        Lineup.get_set_self _ _ _,
        ⟨_, rfl, rfl, rfl⟩⟩

/-- C8: the set transition (handleNextSet followed by the lineup
re-entry committing via handleGameStart) increments the set number,
credits one set win to the strictly leading side (none on a tie),
resets both scores to zero, and leaves the log unchanged. -/
theorem set_transition_outcome (nml nol : Lineup) (serve : TeamSide) (s : AppState) :
    (setTransition nml nol serve s).state.currentSet = s.state.currentSet + 1
    ∧ (setTransition nml nol serve s).state.myScore = 0
    ∧ (setTransition nml nol serve s).state.opScore = 0
    ∧ (setTransition nml nol serve s).state.logs = s.state.logs
    ∧ (s.state.myScore > s.state.opScore →
        (setTransition nml nol serve s).state.mySetWins = s.state.mySetWins + 1
        ∧ (setTransition nml nol serve s).state.opSetWins = s.state.opSetWins)
    ∧ (s.state.opScore > s.state.myScore →
        (setTransition nml nol serve s).state.opSetWins = s.state.opSetWins + 1
        ∧ (setTransition nml nol serve s).state.mySetWins = s.state.mySetWins)
    ∧ (s.state.myScore = s.state.opScore →
        (setTransition nml nol serve s).state.mySetWins = s.state.mySetWins
        ∧ (setTransition nml nol serve s).state.opSetWins = s.state.opSetWins) := by
  obtain ⟨⟨cs, msw, osw, ml, ol, ms, os, st, lg⟩, hist, fut⟩ := s
  simp only [setTransition, handleNextSet, handleGameStart, pushHistory]
  split_ifs with h1 h2
  · exact ⟨rfl, trivial, trivial, rfl, fun _ => ⟨rfl, rfl⟩,
      fun hg => absurd hg (by omega), fun hg => absurd hg (by omega)⟩
  · exact ⟨rfl, trivial, trivial, rfl, fun hg => absurd hg (by omega),
      fun _ => ⟨rfl, rfl⟩, fun hg => absurd hg (by omega)⟩
  · exact ⟨rfl, trivial, trivial, rfl, fun hg => absurd hg h1,
      fun hg => absurd hg h2, fun _ => ⟨rfl, rfl⟩⟩

/-! ### Counter characterizations for the statistics aggregator -/

theorem statStep_attackTotal (st : StatSummary) (l : LogEntry) :
    (statStep st l).attackTotal
      = st.attackTotal + (if l.action = ActionType.ATTACK then 1 else 0) := by
  cases hA : l.action <;> cases hR : l.result <;> simp [statStep, hA, hR]

theorem statStep_attackKills (st : StatSummary) (l : LogEntry) :
    (statStep st l).attackKills
      = st.attackKills
        + (if l.action = ActionType.ATTACK ∧ l.result = ResultType.POINT then 1 else 0) := by
  cases hA : l.action <;> cases hR : l.result <;> simp [statStep, hA, hR]

theorem statStep_blocks (st : StatSummary) (l : LogEntry) :
    (statStep st l).blocks
      = st.blocks
        + (if l.action = ActionType.BLOCK ∧ l.result = ResultType.POINT then 1 else 0) := by
  cases hA : l.action <;> cases hR : l.result <;> simp [statStep, hA, hR]

theorem statStep_serveAces (st : StatSummary) (l : LogEntry) :
    (statStep st l).serveAces
      = st.serveAces
        + (if l.action = ActionType.SERVE ∧ l.result = ResultType.POINT then 1 else 0) := by
  cases hA : l.action <;> cases hR : l.result <;> simp [statStep, hA, hR]

theorem statStep_serveErrors (st : StatSummary) (l : LogEntry) :
    (statStep st l).serveErrors
      = st.serveErrors
        + (if l.action = ActionType.SERVE ∧ l.result = ResultType.ERROR then 1 else 0) := by
  cases hA : l.action <;> cases hR : l.result <;> simp [statStep, hA, hR]

theorem statStep_digs (st : StatSummary) (l : LogEntry) :
    (statStep st l).digs
      = st.digs + (if l.action = ActionType.DIG then 1 else 0) := by
  cases hA : l.action <;> cases hR : l.result <;> simp [statStep, hA, hR]

theorem foldl_statStep_attackTotal (logs : List LogEntry) (init : StatSummary) :
    (logs.foldl statStep init).attackTotal
      = init.attackTotal + logs.countP (fun l => decide (l.action = ActionType.ATTACK)) := by
  induction logs generalizing init with
  | nil => simp
  | cons l ls ih =>
      rw [List.foldl_cons, ih, statStep_attackTotal, List.countP_cons]
      by_cases hA : l.action = ActionType.ATTACK <;> simp [hA] <;> omega

theorem foldl_statStep_attackKills (logs : List LogEntry) (init : StatSummary) :
    (logs.foldl statStep init).attackKills
      = init.attackKills
        + logs.countP (fun l => decide (l.action = ActionType.ATTACK ∧ l.result = ResultType.POINT)) := by
  induction logs generalizing init with
  | nil => simp
  | cons l ls ih =>
      rw [List.foldl_cons, ih, statStep_attackKills, List.countP_cons]
      by_cases hA : l.action = ActionType.ATTACK ∧ l.result = ResultType.POINT <;>
        simp [hA] <;> omega

theorem foldl_statStep_blocks (logs : List LogEntry) (init : StatSummary) :
    (logs.foldl statStep init).blocks
      = init.blocks
        + logs.countP (fun l => decide (l.action = ActionType.BLOCK ∧ l.result = ResultType.POINT)) := by
  induction logs generalizing init with
  | nil => simp
  | cons l ls ih =>
      rw [List.foldl_cons, ih, statStep_blocks, List.countP_cons]
      by_cases hA : l.action = ActionType.BLOCK ∧ l.result = ResultType.POINT <;>
        simp [hA] <;> omega

theorem foldl_statStep_serveAces (logs : List LogEntry) (init : StatSummary) :
    (logs.foldl statStep init).serveAces
      = init.serveAces
        + logs.countP (fun l => decide (l.action = ActionType.SERVE ∧ l.result = ResultType.POINT)) := by
  induction logs generalizing init with
  | nil => simp
  | cons l ls ih =>
      rw [List.foldl_cons, ih, statStep_serveAces, List.countP_cons]
      by_cases hA : l.action = ActionType.SERVE ∧ l.result = ResultType.POINT <;>
        simp [hA] <;> omega

theorem foldl_statStep_serveErrors (logs : List LogEntry) (init : StatSummary) :
    (logs.foldl statStep init).serveErrors
      = init.serveErrors
        + logs.countP (fun l => decide (l.action = ActionType.SERVE ∧ l.result = ResultType.ERROR)) := by
  induction logs generalizing init with
  | nil => simp
  | cons l ls ih =>
      rw [List.foldl_cons, ih, statStep_serveErrors, List.countP_cons]
      by_cases hA : l.action = ActionType.SERVE ∧ l.result = ResultType.ERROR <;>
        simp [hA] <;> omega

theorem foldl_statStep_digs (logs : List LogEntry) (init : StatSummary) :
    (logs.foldl statStep init).digs
      = init.digs + logs.countP (fun l => decide (l.action = ActionType.DIG)) := by
  induction logs generalizing init with
  | nil => simp
  | cons l ls ih =>
      rw [List.foldl_cons, ih, statStep_digs, List.countP_cons]
      by_cases hA : l.action = ActionType.DIG <;> simp [hA] <;> omega

/-- C9: the statistics aggregator computes exactly the spec's counts,
`totalPoints = attackKills + blocks + serveAces` (so SET, RECEIVE, DIG
and SUB entries never affect it), and the displayed attack rate is the
rounded percentage of `attackKills/attackTotal` when `attackTotal > 0`
and 0 whenever `attackTotal` is 0 (no division by zero). -/
theorem stats_formulas (logs : List LogEntry) (e : LogEntry) :
    (calculateStats logs).attackTotal
        = logs.countP (fun l => decide (l.action = ActionType.ATTACK))
    ∧ (calculateStats logs).attackKills
        = logs.countP (fun l => decide (l.action = ActionType.ATTACK ∧ l.result = ResultType.POINT))
    ∧ (calculateStats logs).blocks
        = logs.countP (fun l => decide (l.action = ActionType.BLOCK ∧ l.result = ResultType.POINT))
    ∧ (calculateStats logs).serveAces
        = logs.countP (fun l => decide (l.action = ActionType.SERVE ∧ l.result = ResultType.POINT))
    ∧ (calculateStats logs).serveErrors
        = logs.countP (fun l => decide (l.action = ActionType.SERVE ∧ l.result = ResultType.ERROR))
    ∧ (calculateStats logs).digs
        = logs.countP (fun l => decide (l.action = ActionType.DIG))
    ∧ (calculateStats logs).totalPoints
        = (calculateStats logs).attackKills + (calculateStats logs).blocks
          + (calculateStats logs).serveAces
    ∧ (e.action = ActionType.SET ∨ e.action = ActionType.RECEIVE
        ∨ e.action = ActionType.DIG ∨ e.action = ActionType.SUB →
        (calculateStats (logs ++ [e])).totalPoints = (calculateStats logs).totalPoints)
    ∧ ((calculateStats logs).attackTotal = 0 → displayedAttackRate (calculateStats logs) = 0)
    ∧ ((calculateStats logs).attackTotal > 0 →
        displayedAttackRate (calculateStats logs)
          = round ((((calculateStats logs).attackKills : ℚ)
              / ((calculateStats logs).attackTotal : ℚ)) * 100)) := by
  have hK : ∀ ls : List LogEntry, (calculateStats ls).attackKills
      = ls.countP (fun l => decide (l.action = ActionType.ATTACK ∧ l.result = ResultType.POINT)) :=
    fun ls => by simp [calculateStats, foldl_statStep_attackKills]
  have hB : ∀ ls : List LogEntry, (calculateStats ls).blocks
      = ls.countP (fun l => decide (l.action = ActionType.BLOCK ∧ l.result = ResultType.POINT)) :=
    fun ls => by simp [calculateStats, foldl_statStep_blocks]
  have hA : ∀ ls : List LogEntry, (calculateStats ls).serveAces
      = ls.countP (fun l => decide (l.action = ActionType.SERVE ∧ l.result = ResultType.POINT)) :=
    fun ls => by simp [calculateStats, foldl_statStep_serveAces]
  have htp : ∀ ls : List LogEntry, (calculateStats ls).totalPoints
      = (calculateStats ls).attackKills + (calculateStats ls).blocks
        + (calculateStats ls).serveAces := fun ls => rfl
  refine ⟨by simp [calculateStats, foldl_statStep_attackTotal], hK logs, hB logs, hA logs,
    by simp [calculateStats, foldl_statStep_serveErrors],
    by simp [calculateStats, foldl_statStep_digs], htp logs, ?_, ?_, ?_⟩
  · intro he
    rw [htp, htp, hK, hB, hA, hK, hB, hA]
    simp only [List.countP_append]
    rcases he with he | he | he | he <;> simp [List.countP_cons, he]
  · intro h0
    simp [displayedAttackRate, h0]
  · intro hpos
    simp [displayedAttackRate, hpos]

/-- An entry of the team-log list contributes its player number to the
side's player list. -/
theorem subLog_in_op_list (cfg : TeamConfig) (lg : List LogEntry) (e : LogEntry)
    (hnote : e.note ≠ some cfg.myName) :
    e ∈ getTeamLogs cfg (lg ++ [e]) TeamSide.op
    ∧ e.playerNumber ∈ activePlayers cfg (lg ++ [e]) TeamSide.op := by
  have hm : e ∈ getTeamLogs cfg (lg ++ [e]) TeamSide.op := by
    simp [getTeamLogs, List.mem_filter, hnote]
  refine ⟨hm, ?_⟩
  simp only [activePlayers, List.mem_dedup, List.mem_map]
  exact ⟨e, hm, rfl⟩

/-- C10: the statistics team filter assigns an entry to 'me' exactly
when its note equals the configured my-team name and to 'op'
otherwise; hence an accepted my-team substitution's LogEntry (whose
note is the substitution description, not the team name) lands in the
'op' team logs and its player number in the 'op' player list. -/
theorem team_attribution_by_note (cfg : TeamConfig) (logs : List LogEntry) (l : LogEntry)
    (pos : Position) (num idStr : String) (now : Nat) (s : AppState) :
    (l ∈ getTeamLogs cfg logs TeamSide.me ↔ l ∈ logs ∧ l.note = some cfg.myName)
    ∧ (l ∈ getTeamLogs cfg logs TeamSide.op ↔ l ∈ logs ∧ l.note ≠ some cfg.myName)
    ∧ (jsTrim num ≠ "" →
       jsTrim num ∉ Lineup.values s.state.myLineup →
       subNote true (s.state.myLineup.get pos) (jsTrim num) ≠ cfg.myName →
       ∃ e, (confirmSub pos true num idStr now s).state.logs = s.state.logs ++ [e]
         ∧ e ∈ getTeamLogs cfg (confirmSub pos true num idStr now s).state.logs TeamSide.op
         ∧ e.playerNumber
             ∈ activePlayers cfg (confirmSub pos true num idStr now s).state.logs TeamSide.op) := by
  refine ⟨?_, ?_, ?_⟩
  · simp only [getTeamLogs, List.mem_filter]
    by_cases h : l.note = some cfg.myName <;> simp [h]
  · simp only [getTeamLogs, List.mem_filter]
    by_cases h : l.note = some cfg.myName <;> simp [h]
  · intro h1 h2 h3
    rw [confirmSub_accepted pos true num idStr now s h1 h2]
    have hnote : (some (subNote true
        ((if (true : Bool) then s.state.myLineup else s.state.opLineup).get pos) (jsTrim num))
          : Option String) ≠ some cfg.myName := by
      simpa using h3
    exact ⟨_, rfl, (subLog_in_op_list cfg s.state.logs _ hnote).1,
      (subLog_in_op_list cfg s.state.logs _ hnote).2⟩

/-! ### Witnesses: the claim theorems applied at concrete inputs -/

/-- A concrete DIG entry used by the statistics witnesses. -/
def dig0 : LogEntry :=
  { id := "d1", timestamp := 1, setNumber := 1, myScore := 0, opScore := 0
    playerNumber := "5", position := Position.p1, action := ActionType.DIG
    quality := ActionQuality.NORMAL, result := ResultType.NORMAL
    servingTeam := TeamSide.me }

/-- Witness for C1: my team (not serving) wins the point, so the serve
switches to 'me' and my lineup rotates while the opponent's stays. -/
theorem rally_side_out_invariant_witness :
    rallyPointWinner sel0 ResultType.POINT = some TeamSide.me
    ∧ TeamSide.me ≠ app0.state.servingTeam
    ∧ (handleResultSelect cfg0 sel0 ResultType.POINT "r1" 5 app0).state.servingTeam = TeamSide.me
    ∧ (handleResultSelect cfg0 sel0 ResultType.POINT "r1" 5 app0).state.myLineup
        = getRotatedLineup app0.state.myLineup
    ∧ (handleResultSelect cfg0 sel0 ResultType.POINT "r1" 5 app0).state.opLineup
        = app0.state.opLineup := by
  have h := rally_side_out_invariant cfg0 sel0 ResultType.POINT "r1" 5 app0 TeamSide.me rfl
  have h2 := h.2.1 (by decide)
  exact ⟨rfl, by decide, h2.1, h2.2.1, h2.2.2⟩

/-- Witness for C2: a POINT by my team adds one to my score and leaves
the opponent score alone. -/
theorem rally_score_outcome_witness :
    (handleResultSelect cfg0 sel0 ResultType.POINT "r1" 5 app0).state.myScore
        = app0.state.myScore + 1
    ∧ (handleResultSelect cfg0 sel0 ResultType.POINT "r1" 5 app0).state.opScore
        = app0.state.opScore := by
  have h := (rally_score_outcome cfg0 sel0 ResultType.POINT "r1" 5 app0).1 rfl
  exact ⟨h.1, h.2⟩

/-- Witness for C5: a concrete manual rotation round-trips through
undo then redo. -/
theorem undo_redo_roundtrip_witness :
    handleRedo (handleUndo (Transition.apply (Transition.manualRotation true) app0))
      = Transition.apply (Transition.manualRotation true) app0 :=
  undo_redo_roundtrip (Transition.manualRotation true) app0 True.intro

/-- Witness for C6: both stacks of `app0` are empty, so undo and redo
are no-ops there. -/
theorem undo_redo_empty_noop_witness :
    handleUndo app0 = app0 ∧ handleRedo app0 = app0 :=
  ⟨(undo_redo_empty_noop app0).1 rfl, (undo_redo_empty_noop app0).2 rfl⟩

/-- Witness for C7: substituting "3" (already on court) is rejected
outright, while substituting "99" replaces position 2 and keeps the
score. -/
theorem substitution_validation_witness :
    confirmSub Position.p2 true "3" "s1" 9 app0 = app0
    ∧ (confirmSub Position.p2 true "99" "s2" 9 app0).state.myLineup
        = Lineup.set app0.state.myLineup Position.p2 (jsTrim "99")
    ∧ (confirmSub Position.p2 true "99" "s2" 9 app0).state.myScore = app0.state.myScore := by
  have hrej := (substitution_validation Position.p2 true "3" "s1" 9 app0).1
  have hacc := (substitution_validation Position.p2 true "99" "s2" 9 app0).2
    (by decide) (by decide)
  exact ⟨hrej (Or.inr (by decide)), hacc.2.2.2.1.1, hacc.1⟩

/-- Witness for C8: from 3:2 the set transition credits my side the
set, bumps the set number and resets the scores. -/
theorem set_transition_outcome_witness :
    (setTransition lineupA lineupB TeamSide.me app0).state.currentSet
        = app0.state.currentSet + 1
    ∧ (setTransition lineupA lineupB TeamSide.me app0).state.myScore = 0
    ∧ (setTransition lineupA lineupB TeamSide.me app0).state.opScore = 0
    ∧ (setTransition lineupA lineupB TeamSide.me app0).state.logs = app0.state.logs
    ∧ (setTransition lineupA lineupB TeamSide.me app0).state.mySetWins
        = app0.state.mySetWins + 1
    ∧ (setTransition lineupA lineupB TeamSide.me app0).state.opSetWins
        = app0.state.opSetWins := by
  have h := set_transition_outcome lineupA lineupB TeamSide.me app0
  have h5 := h.2.2.2.2.1 (by decide)
  exact ⟨h.1, h.2.1, h.2.2.1, h.2.2.2.1, h5.1, h5.2⟩

/-- A concrete attack kill used by the statistics witness. -/
def atk0 : LogEntry :=
  { id := "a1", timestamp := 2, setNumber := 1, myScore := 1, opScore := 0
    playerNumber := "3", position := Position.p3, action := ActionType.ATTACK
    quality := ActionQuality.GOOD, result := ResultType.POINT
    servingTeam := TeamSide.me }

/-- Witness for C9: a DIG entry leaves totalPoints unchanged, the
empty log displays a 0% attack rate, and a one-kill log displays the
rounded kill percentage. -/
theorem stats_formulas_witness :
    ((calculateStats (([] : List LogEntry) ++ [dig0])).totalPoints
        = (calculateStats ([] : List LogEntry)).totalPoints
    ∧ displayedAttackRate (calculateStats ([] : List LogEntry)) = 0)
    ∧ displayedAttackRate (calculateStats [atk0])
        = round ((((calculateStats [atk0]).attackKills : ℚ)
            / ((calculateStats [atk0]).attackTotal : ℚ)) * 100) := by
  have h := stats_formulas [] dig0
  have h2 := stats_formulas [atk0] dig0
  exact ⟨⟨h.2.2.2.2.2.2.2.1 (Or.inr (Or.inr (Or.inl rfl))),
    h.2.2.2.2.2.2.2.2.1 (by decide)⟩,
    h2.2.2.2.2.2.2.2.2.2 (by decide)⟩

/-- Witness for C10: the accepted my-team substitution "99" at
position 2 lands in the opponent-side team logs and player list. -/
theorem team_attribution_by_note_witness :
    ∃ e, (confirmSub Position.p2 true "99" "s2" 9 app0).state.logs
            = app0.state.logs ++ [e]
      ∧ e ∈ getTeamLogs cfg0
          (confirmSub Position.p2 true "99" "s2" 9 app0).state.logs TeamSide.op
      ∧ e.playerNumber ∈ activePlayers cfg0
          (confirmSub Position.p2 true "99" "s2" 9 app0).state.logs TeamSide.op :=
  (team_attribution_by_note cfg0 [] dig0 Position.p2 "99" "s2" 9 app0).2.2
    (by decide) (by decide) (by decide)

end Volley
